import Mathlib

/-!
Shallow embedding of `rllib/env/wrappers/recsim.py`: the three RecSim adapter
wrappers (`RecSimObservationSpaceWrapper`, `RecSimResetWrapper`,
`MultiDiscreteToDiscreteActionWrapper`) and the configuration handling of the
environment factory `make_recsim_env`.

Observations are modelled as ordered association lists (Python dicts preserve
insertion order), gym spaces as an inductive type, and the numpy integers of
the action wrapper as `Nat` (all values involved are non-negative and, for the
valid inputs the claims quantify over, bounded by the space sizes, so machine
overflow does not arise).
-/

namespace RecSimWrap

/-- Elements of gym spaces: integers, integer vectors (numpy arrays), and
(ordered) dictionaries. -/
inductive Elem where
  | int : Int → Elem
  | arr : List Int → Elem
  | dict : List (String × Elem) → Elem

/-- Gym space descriptors, restricted to the shapes this module manipulates:
`Discrete(n)`, `MultiDiscrete(nvec)`, a box-like space of integer vectors, and
`Dict` spaces. -/
inductive GymSpace where
  | discrete : Nat → GymSpace
  | multiDiscrete : List Nat → GymSpace
  | box : GymSpace
  | dict : List (String × GymSpace) → GymSpace

mutual

/-- `space.contains(x)`: membership of an element in a gym space. -/
def containsElem : GymSpace → Elem → Bool
  | .discrete n, .int i => decide (0 ≤ i) && decide (i < (n : Int))
  | .multiDiscrete nvec, .arr xs =>
      decide (xs.length = nvec.length) &&
      (xs.zip nvec).all (fun p => decide (0 ≤ p.1) && decide (p.1 < (p.2 : Int)))
  | .box, .arr _ => true
  | .dict entries, .dict des => containsEntries entries des
  | _, _ => false

/-- Pointwise membership of the entries of a dict element in the entries of a
`Dict` space (keys must agree in order). -/
def containsEntries : List (String × GymSpace) → List (String × Elem) → Bool
  | [], [] => true
  | (k, s) :: rest, (k2, e) :: rest2 =>
      decide (k = k2) && containsElem s e && containsEntries rest rest2
  | _, _ => false

end

/-- Errors raised by (or propagated through) this module. -/
inductive PyError where
  | unsupportedSpaceException : String → PyError
  | notImplementedError : PyError

namespace MultiDiscreteToDiscreteActionWrapper

/-- The wrapper state built by `MultiDiscreteToDiscreteActionWrapper.__init__`:
`self.action_space_dimensions = env.action_space.nvec` and
`self.action_space = Discrete(np.prod(self.action_space_dimensions))`. -/
structure State where
  action_space_dimensions : List Nat
  action_space : GymSpace

/-- `MultiDiscreteToDiscreteActionWrapper.__init__`: raises
`UnsupportedSpaceException` unless the wrapped env's action space is a
`MultiDiscrete`; otherwise records the slot cardinalities and exposes a
`Discrete` space of size their product. -/
def init (env_action_space : GymSpace) : Except PyError State :=
  match env_action_space with
  | .multiDiscrete nvec => .ok ⟨nvec, .discrete nvec.prod⟩
  | _ => .error (.unsupportedSpaceException
      "Action space is not supported by MultiDiscreteToDiscreteActionWrapper")

/-- `MultiDiscreteToDiscreteActionWrapper.action`: converts a `Discrete` action
into a `MultiDiscrete` one by repeated `divmod` against each slot cardinality,
in slot order (`for idx, n in enumerate(dims): action, dim_action =
divmod(action, n); multi_action[idx] = dim_action`). -/
def action (dims : List Nat) (a : Nat) : List Nat :=
  match dims with
  | [] => []
  | n :: rest => a % n :: action rest (a / n)

/-- Mixed-radix combined index of a per-slot vector, slot 0 least significant:
`toCombinedIndex [n0, n1, ...] [v0, v1, ...] = v0 + n0 * (v1 + n1 * ...)`.
This is the specification-side inverse of `action`, used to state the
bijection between combined indices and per-slot vectors. -/
def toCombinedIndex (dims : List Nat) (v : List Nat) : Nat :=
  match dims, v with
  | n :: rest, x :: xs => x + n * toCombinedIndex rest xs
  | _, _ => 0

end MultiDiscreteToDiscreteActionWrapper

/-- A step observation of a RecSim gym env: an (ordered) dict with keys
`"user"`, `"doc"`, `"response"`, where `"doc"` is itself an ordered dict keyed
by document IDs. -/
structure StepObs where
  user : Elem
  doc : List (String × Elem)
  response : Elem

/-- The observation space of a RecSim gym env: a `Dict` space with keys
`"user"`, `"doc"`, `"response"`, where the `"doc"` sub-space is itself a
`Dict` keyed by document IDs. -/
structure ObsSpace where
  user : GymSpace
  doc : List (String × GymSpace)
  response : GymSpace

/-- Modelled from the spec: `convert_element_to_space_type` (from
`ray.rllib.utils.spaces.space_utils`, whose source is not under `src/`)
coerces the numpy dtypes of the element's leaf values to the dtypes of the
corresponding leaves of the previously sampled element; the spec describes its
effect as making the value "validly-typed" while keeping the observation's
structure and entries. At this embedding's abstraction level, which carries no
numpy dtypes, it is therefore the identity on the element. -/
def convert_element_to_space_type {α : Type} (element : α) (_sampled : α) : α :=
  element

namespace RecSimObservationSpaceWrapper

/-- The doc re-keying shared by `__init__` and `observation`:
`[(str(k), v) for k, (_, v) in enumerate(entries.items())]` — entries are
relabeled by position (as decimal strings) in iteration order, values kept. -/
def reindexByPosition {α : Type} (entries : List (String × α)) : List (String × α) :=
  entries.enum.map (fun p => (toString p.1, p.2.2))

/-- The observation space declared once by
`RecSimObservationSpaceWrapper.__init__`: `"user"` and `"response"` sub-spaces
taken unchanged from the wrapped env, the `"doc"` sub-space re-keyed by
position. -/
def mkObservationSpace (obs_space : ObsSpace) : ObsSpace :=
  { user := obs_space.user
    doc := reindexByPosition obs_space.doc
    response := obs_space.response }

/-- Wrapper state built by `RecSimObservationSpaceWrapper.__init__`:
the declared observation space and `self._sampled_obs =
self.observation_space.sample()`. -/
structure State where
  observation_space : ObsSpace
  sampled_obs : StepObs

/-- `RecSimObservationSpaceWrapper.__init__`, parametrized by the external
`Space.sample()` call (gym library code) used for `self._sampled_obs`. -/
def init (env_observation_space : ObsSpace) (sample : ObsSpace → StepObs) : State :=
  let space := mkObservationSpace env_observation_space
  { observation_space := space, sampled_obs := sample space }

/-- `RecSimObservationSpaceWrapper.observation`: rebuilds the observation with
`"user"` and `"response"` unchanged and `"doc"` re-keyed by position, then
passes it through `convert_element_to_space_type` against `self._sampled_obs`. -/
def observation (w : State) (obs : StepObs) : StepObs :=
  convert_element_to_space_type
    { user := obs.user
      doc := reindexByPosition obs.doc
      response := obs.response }
    w.sampled_obs

end RecSimObservationSpaceWrapper

/-- The wrapped RecSim gym environment, as seen by `RecSimResetWrapper`: its
declared observation space, the observation its `reset()` returns (an ordered
dict that omits the `"response"` key), and the behavior of its `close()`
(which, per the RecSim library, raises `NotImplementedError`). -/
structure RecSimGymEnv where
  observation_space : ObsSpace
  resetObs : List (String × Elem)
  closeResult : Except PyError Unit

/-- Python dict assignment `d[k] = v`: overwrite in place when the key is
present, append at the end otherwise. -/
def dictSet (d : List (String × Elem)) (k : String) (v : Elem) : List (String × Elem) :=
  if d.any (fun p => p.1 == k) then
    d.map (fun p => if p.1 == k then (k, v) else p)
  else d ++ [(k, v)]

/-- Python dict lookup `d[k]` / `d.get(k)` on an ordered association list. -/
def dictGet (d : List (String × Elem)) (k : String) : Option Elem :=
  (d.find? (fun p => p.1 == k)).map Prod.snd

namespace RecSimResetWrapper

/-- `RecSimResetWrapper.reset`: calls the underlying `reset()` (whose result
omits `"response"`), assigns `obs["response"] =
self.env.observation_space["response"].sample()`, and passes the result
through `convert_element_to_space_type` against `self._sampled_obs`. The two
external `Space.sample()` calls (gym library code) are parameters:
`sampledResponse` is the value sampled from the `"response"` sub-space and
`sampled_obs` models `self._sampled_obs`. -/
def reset (env : RecSimGymEnv) (sampledResponse : Elem)
    (sampled_obs : List (String × Elem)) : List (String × Elem) :=
  convert_element_to_space_type
    (dictSet env.resetObs "response" sampledResponse) sampled_obs

/-- `RecSimResetWrapper.close`: overridden to `pass` — it returns `None` and
leaves the wrapper (and the wrapped env) untouched, never delegating to the
underlying `close()`. -/
def close (env : RecSimGymEnv) : Except PyError (Unit × RecSimGymEnv) :=
  Except.ok ((), env)

end RecSimResetWrapper

/-- The env-construction configuration of `_RecSimEnv.__init__`, with every
key resolved. -/
structure EnvConfig where
  num_candidates : Nat
  slate_size : Nat
  resample_documents : Bool
  seed : Nat
  convert_to_discrete_action_space : Bool

/-- A caller-supplied configuration dict, possibly omitting keys. -/
structure EnvContextPartial where
  num_candidates : Option Nat
  slate_size : Option Nat
  resample_documents : Option Bool
  seed : Option Nat
  convert_to_discrete_action_space : Option Bool

/-- The `default_config` dict of `_RecSimEnv.__init__`. -/
def default_config : EnvConfig :=
  { num_candidates := 10
    slate_size := 2
    resample_documents := true
    seed := 0
    convert_to_discrete_action_space := false }

/-- A fully-specified config viewed as a caller-supplied dict (used for
`EnvContext(env_ctx or default_config, worker_index=0)` when the caller's
dict is falsy). -/
def EnvConfig.toPartial (c : EnvConfig) : EnvContextPartial :=
  { num_candidates := some c.num_candidates
    slate_size := some c.slate_size
    resample_documents := some c.resample_documents
    seed := some c.seed
    convert_to_discrete_action_space := some c.convert_to_discrete_action_space }

/-- Python truthiness of a dict: an empty dict is falsy. -/
def EnvContextPartial.isEmpty (c : EnvContextPartial) : Bool :=
  c.num_candidates.isNone && c.slate_size.isNone && c.resample_documents.isNone &&
    c.seed.isNone && c.convert_to_discrete_action_space.isNone

/-- Modelled from the spec: `EnvContext.set_defaults` (from
`ray.rllib.env.env_context`, whose source is not under `src/`) fills every key
absent from the context with the given default value and leaves keys the
caller supplied untouched ("Defaults are supplied for any configuration
omitted by the caller"). -/
def EnvContextPartial.set_defaults (c : EnvContextPartial) (d : EnvConfig) : EnvConfig :=
  { num_candidates := c.num_candidates.getD d.num_candidates
    slate_size := c.slate_size.getD d.slate_size
    resample_documents := c.resample_documents.getD d.resample_documents
    seed := c.seed.getD d.seed
    convert_to_discrete_action_space :=
      c.convert_to_discrete_action_space.getD d.convert_to_discrete_action_space }

/-- The configuration-resolution path of `_RecSimEnv.__init__`:
`if env_ctx is None or isinstance(env_ctx, dict): env_ctx = EnvContext(env_ctx
or default_config, worker_index=0)` followed by
`env_ctx.set_defaults(default_config)`. `none` models passing no
configuration; a falsy (empty) dict is replaced by `default_config` before
defaults are applied. -/
def resolveConfig (env_ctx : Option EnvContextPartial) : EnvConfig :=
  let ctx : EnvContextPartial :=
    match env_ctx with
    | none => default_config.toPartial
    | some c => if c.isEmpty then default_config.toPartial else c
  ctx.set_defaults default_config

/-- A concrete wrapped RecSim gym env, used to evaluate the theorems on
explicit inputs: its `reset()` observation omits `"response"` and its
`close()` raises `NotImplementedError`, as the RecSim library's do. -/
def exampleEnv : RecSimGymEnv :=
  { observation_space :=
      { user := GymSpace.box
        doc := [("d0", GymSpace.box)]
        response := GymSpace.discrete 3 }
    resetObs := [("user", Elem.int 0), ("doc", Elem.dict [])]
    closeResult := Except.error PyError.notImplementedError }

/-- A concrete step observation whose `"doc"` mapping is keyed by
run-varying document IDs. -/
def exampleObsA : StepObs :=
  { user := Elem.int 0
    doc := [("doc17", Elem.arr [1]), ("doc42", Elem.arr [2])]
    response := Elem.int 0 }

/-- A second concrete step observation with the same number of documents but
different document-ID keys. -/
def exampleObsB : StepObs :=
  { user := Elem.int 1
    doc := [("doc99", Elem.arr [3]), ("doc3", Elem.arr [4])]
    response := Elem.int 1 }

/-- A concrete `RecSimObservationSpaceWrapper` state. -/
def exampleObsWrapper : RecSimObservationSpaceWrapper.State :=
  RecSimObservationSpaceWrapper.init exampleEnv.observation_space (fun _ => exampleObsA)

end RecSimWrap

namespace RecSimWrap

namespace MultiDiscreteToDiscreteActionWrapper

theorem action_length (dims : List Nat) (a : Nat) :
    (action dims a).length = dims.length := by
  induction dims generalizing a with
  | nil => rfl
  | cons n rest ih => simp [action, ih]

theorem action_getD_lt (dims : List Nat) (a : Nat) (ha : a < dims.prod) :
    ∀ j, j < dims.length → (action dims a).getD j 0 < dims.getD j 0 := by
  induction dims generalizing a with
  | nil => intro j hj; simp at hj
  | cons n rest ih =>
    have hn : 0 < n := by
      rcases Nat.eq_zero_or_pos n with h0 | h0
      · subst h0; simp [List.prod_cons] at ha
      · exact h0
    have hdiv : a / n < rest.prod := by
      rw [Nat.div_lt_iff_lt_mul hn]
      calc a < (n :: rest).prod := ha
        _ = rest.prod * n := by rw [List.prod_cons, Nat.mul_comm]
    intro j hj
    match j with
    | 0 => simpa [action] using Nat.mod_lt a hn
    | j + 1 =>
      have hj2 : j < rest.length := by simpa using hj
      simpa [action] using ih (a / n) hdiv j hj2

theorem toCombinedIndex_action (dims : List Nat) (a : Nat) (ha : a < dims.prod) :
    toCombinedIndex dims (action dims a) = a := by
  induction dims generalizing a with
  | nil => simp [List.prod_nil] at ha; simp [action, toCombinedIndex, ha]
  | cons n rest ih =>
    have hn : 0 < n := by
      rcases Nat.eq_zero_or_pos n with h0 | h0
      · subst h0; simp [List.prod_cons] at ha
      · exact h0
    have hdiv : a / n < rest.prod := by
      rw [Nat.div_lt_iff_lt_mul hn]
      calc a < (n :: rest).prod := ha
        _ = rest.prod * n := by rw [List.prod_cons, Nat.mul_comm]
    simp only [action, toCombinedIndex, ih (a / n) hdiv]
    exact Nat.mod_add_div a n

theorem toCombinedIndex_lt (dims v : List Nat) (hlen : v.length = dims.length)
    (hv : ∀ j, j < dims.length → v.getD j 0 < dims.getD j 0) :
    toCombinedIndex dims v < dims.prod := by
  induction dims generalizing v with
  | nil =>
    have : v = [] := List.eq_nil_of_length_eq_zero hlen
    subst this; simp [toCombinedIndex]
  | cons n rest ih =>
    match v with
    | [] => simp at hlen
    | x :: xs =>
      have hx : x < n := by simpa using hv 0 (by simp)
      have hxs : ∀ j, j < rest.length → xs.getD j 0 < rest.getD j 0 := by
        intro j hj
        simpa using hv (j + 1) (by simpa using Nat.succ_lt_succ hj)
      have he : toCombinedIndex rest xs < rest.prod :=
        ih xs (by simpa using hlen) hxs
      simp only [toCombinedIndex, List.prod_cons]
      calc x + n * toCombinedIndex rest xs
          < n + n * toCombinedIndex rest xs := by omega
        _ = n * (toCombinedIndex rest xs + 1) := by ring
        _ ≤ n * rest.prod := Nat.mul_le_mul_left n (Nat.succ_le_of_lt he)

theorem action_toCombinedIndex (dims v : List Nat) (hlen : v.length = dims.length)
    (hv : ∀ j, j < dims.length → v.getD j 0 < dims.getD j 0) :
    action dims (toCombinedIndex dims v) = v := by
  induction dims generalizing v with
  | nil =>
    have : v = [] := List.eq_nil_of_length_eq_zero hlen
    subst this; rfl
  | cons n rest ih =>
    match v with
    | [] => simp at hlen
    | x :: xs =>
      have hx : x < n := by simpa using hv 0 (by simp)
      have hn : 0 < n := Nat.lt_of_le_of_lt (Nat.zero_le x) hx
      have hxs : ∀ j, j < rest.length → xs.getD j 0 < rest.getD j 0 := by
        intro j hj
        simpa using hv (j + 1) (by simpa using Nat.succ_lt_succ hj)
      have hmod : (x + n * toCombinedIndex rest xs) % n = x := by
        rw [Nat.add_mul_mod_self_left, Nat.mod_eq_of_lt hx]
      have hdiv : (x + n * toCombinedIndex rest xs) / n = toCombinedIndex rest xs := by
        rw [Nat.add_mul_div_left x _ hn, Nat.div_eq_of_lt hx, Nat.zero_add]
      simp only [toCombinedIndex, action, hmod, hdiv]
      exact congrArg (x :: ·) (ih xs (by simpa using hlen) hxs)

end MultiDiscreteToDiscreteActionWrapper

theorem reindex_map_fst {α : Type} (d : List (String × α)) :
    (RecSimObservationSpaceWrapper.reindexByPosition d).map Prod.fst =
      (List.range d.length).map toString := by
  unfold RecSimObservationSpaceWrapper.reindexByPosition
  rw [List.map_map]
  have h : (Prod.fst ∘ fun p : Nat × (String × α) => (toString p.1, p.2.2)) =
      toString ∘ Prod.fst := rfl
  rw [h, ← List.map_map, List.enum_map_fst]

theorem reindex_map_snd {α : Type} (d : List (String × α)) :
    (RecSimObservationSpaceWrapper.reindexByPosition d).map Prod.snd =
      d.map Prod.snd := by
  unfold RecSimObservationSpaceWrapper.reindexByPosition
  rw [List.map_map]
  have h : (Prod.snd ∘ fun p : Nat × (String × α) => (toString p.1, p.2.2)) =
      (Prod.snd ∘ Prod.snd : Nat × (String × α) → α) := rfl
  rw [h, ← List.map_map, List.enum_map_snd]

theorem dictGet_append_of_missing (d : List (String × Elem)) (k : String) (v : Elem)
    (h : d.any (fun p => p.1 == k) = false) :
    dictGet (d ++ [(k, v)]) k = some v := by
  induction d with
  | nil => simp [dictGet, List.find?]
  | cons p rest ih =>
    rw [List.any_cons] at h
    have h1 : (p.1 == k) = false := by
      cases hpk : (p.1 == k) <;> simp [hpk] at h ⊢
    have h2 : rest.any (fun q => q.1 == k) = false := by
      cases hr : rest.any (fun q => q.1 == k) <;> simp [hr, h1] at h ⊢
    have := ih h2
    simpa [dictGet, List.find?, h1] using this

theorem dictSet_of_missing (d : List (String × Elem)) (k : String) (v : Elem)
    (h : d.any (fun p => p.1 == k) = false) :
    dictSet d k v = d ++ [(k, v)] := by
  simp [dictSet, h]

/-- Claim C1: for every `MultiDiscrete` cardinality vector and every combined
index `i < ∏ n_j`, `MultiDiscreteToDiscreteActionWrapper.action` returns a
per-slot vector with each component `v_j < n_j`, computed by repeated integer
division/remainder in slot order, and the resulting map is a bijection
between `[0, ∏ n_j)` and the cross-product of per-slot choices: encoding the
decoded vector recovers `i`, and for every valid per-slot vector `v` the
combined index `toCombinedIndex dims v` lies in range and decodes back to
`v`. -/
theorem c1_action_combined_index_bijection (dims : List Nat) (i : Nat)
    (hi : i < dims.prod) (v : List Nat) (hlen : v.length = dims.length)
    (hv : ∀ j, j < dims.length → v.getD j 0 < dims.getD j 0) :
    (MultiDiscreteToDiscreteActionWrapper.action dims i).length = dims.length ∧
    (∀ j, j < dims.length →
      (MultiDiscreteToDiscreteActionWrapper.action dims i).getD j 0 < dims.getD j 0) ∧
    MultiDiscreteToDiscreteActionWrapper.toCombinedIndex dims
      (MultiDiscreteToDiscreteActionWrapper.action dims i) = i ∧
    MultiDiscreteToDiscreteActionWrapper.toCombinedIndex dims v < dims.prod ∧
    MultiDiscreteToDiscreteActionWrapper.action dims
      (MultiDiscreteToDiscreteActionWrapper.toCombinedIndex dims v) = v :=
  ⟨MultiDiscreteToDiscreteActionWrapper.action_length dims i,
   MultiDiscreteToDiscreteActionWrapper.action_getD_lt dims i hi,
   MultiDiscreteToDiscreteActionWrapper.toCombinedIndex_action dims i hi,
   MultiDiscreteToDiscreteActionWrapper.toCombinedIndex_lt dims v hlen hv,
   MultiDiscreteToDiscreteActionWrapper.action_toCombinedIndex dims v hlen hv⟩

/-- Witness for C1 at cardinalities `[3, 4]`, combined index `5` and per-slot
vector `[2, 1]`. -/
theorem c1_witness :
    (MultiDiscreteToDiscreteActionWrapper.action [3, 4] 5).length =
      ([3, 4] : List Nat).length ∧
    (∀ j, j < ([3, 4] : List Nat).length →
      (MultiDiscreteToDiscreteActionWrapper.action [3, 4] 5).getD j 0 <
        ([3, 4] : List Nat).getD j 0) ∧
    MultiDiscreteToDiscreteActionWrapper.toCombinedIndex [3, 4]
      (MultiDiscreteToDiscreteActionWrapper.action [3, 4] 5) = 5 ∧
    MultiDiscreteToDiscreteActionWrapper.toCombinedIndex [3, 4] [2, 1] <
      ([3, 4] : List Nat).prod ∧
    MultiDiscreteToDiscreteActionWrapper.action [3, 4]
      (MultiDiscreteToDiscreteActionWrapper.toCombinedIndex [3, 4] [2, 1]) = [2, 1] :=
  c1_action_combined_index_bijection [3, 4] 5 (by decide) [2, 1] (by decide) (by decide)

/-- Claim C2 counterexample: with cardinalities `[3, 4]`, decoding combined
index `5` yields `[2, 1]`, not `[1, 1]` as the claim states (the code makes
slot 0 the least-significant digit, so `5 = 2 + 3 * 1`). -/
theorem c2_counterexample_action_five :
    ¬ MultiDiscreteToDiscreteActionWrapper.action [3, 4] 5 = [1, 1] := by decide

/-- Claim C2 (amended): for slot cardinalities `[3, 4]` the wrapper's combined
`Discrete` space has size `12`, decoding combined index `5` yields the slot
vector `[2, 1]`, and the slot vector `[2, 3]` corresponds to combined index
`11` under the wrapper's decoding. -/
theorem c2_amended_concrete_scenario :
    MultiDiscreteToDiscreteActionWrapper.init (GymSpace.multiDiscrete [3, 4]) =
      Except.ok ⟨[3, 4], GymSpace.discrete 12⟩ ∧
    MultiDiscreteToDiscreteActionWrapper.action [3, 4] 5 = [2, 1] ∧
    MultiDiscreteToDiscreteActionWrapper.action [3, 4] 11 = [2, 3] ∧
    MultiDiscreteToDiscreteActionWrapper.toCombinedIndex [3, 4] [2, 3] = 11 :=
  ⟨rfl, rfl, rfl, rfl⟩

/-- Claim C3: `RecSimObservationSpaceWrapper.observation` returns an
observation whose `"doc"` sub-mapping has keys exactly the strings `"0"` to
`"N-1"` (`N` the number of entries of the input's `"doc"` mapping), assigned
by position in iteration order with the values kept; the keys are independent
of the underlying document-ID keys, so the key set is the same across any two
observations with the same document count. -/
theorem c3_observation_doc_keys_positional
    (w : RecSimObservationSpaceWrapper.State) (obs obs2 : StepObs)
    (hlen : obs.doc.length = obs2.doc.length) :
    (RecSimObservationSpaceWrapper.observation w obs).doc.map Prod.fst =
      (List.range obs.doc.length).map toString ∧
    (RecSimObservationSpaceWrapper.observation w obs).doc.map Prod.snd =
      obs.doc.map Prod.snd ∧
    (RecSimObservationSpaceWrapper.observation w obs).doc.map Prod.fst =
      (RecSimObservationSpaceWrapper.observation w obs2).doc.map Prod.fst := by
  refine ⟨reindex_map_fst obs.doc, reindex_map_snd obs.doc, ?_⟩
  show (RecSimObservationSpaceWrapper.reindexByPosition obs.doc).map Prod.fst =
    (RecSimObservationSpaceWrapper.reindexByPosition obs2.doc).map Prod.fst
  rw [reindex_map_fst, reindex_map_fst, hlen]

/-- Witness for C3 on two concrete observations with two documents each and
disjoint document-ID keys. -/
theorem c3_witness :
    (RecSimObservationSpaceWrapper.observation exampleObsWrapper exampleObsA).doc.map
      Prod.fst = (List.range exampleObsA.doc.length).map toString ∧
    (RecSimObservationSpaceWrapper.observation exampleObsWrapper exampleObsA).doc.map
      Prod.snd = exampleObsA.doc.map Prod.snd ∧
    (RecSimObservationSpaceWrapper.observation exampleObsWrapper exampleObsA).doc.map
      Prod.fst =
      (RecSimObservationSpaceWrapper.observation exampleObsWrapper exampleObsB).doc.map
        Prod.fst :=
  c3_observation_doc_keys_positional exampleObsWrapper exampleObsA exampleObsB rfl

/-- Claim C4: `MultiDiscreteToDiscreteActionWrapper.__init__` succeeds exactly
when the wrapped env's action space is a `MultiDiscrete`, and on any other
space it raises `UnsupportedSpaceException` immediately at construction. -/
theorem c4_init_unsupported_space_iff (s : GymSpace) :
    ((∃ w, MultiDiscreteToDiscreteActionWrapper.init s = Except.ok w) ↔
      ∃ nvec, s = GymSpace.multiDiscrete nvec) ∧
    ((∀ nvec, s ≠ GymSpace.multiDiscrete nvec) →
      ∃ msg, MultiDiscreteToDiscreteActionWrapper.init s =
        Except.error (PyError.unsupportedSpaceException msg)) := by
  cases s
  case multiDiscrete nvec =>
    exact ⟨⟨fun _ => ⟨nvec, rfl⟩,
      fun _ => ⟨⟨nvec, GymSpace.discrete nvec.prod⟩, rfl⟩⟩,
      fun h => absurd rfl (h nvec)⟩
  all_goals
    exact ⟨⟨fun hw => by rcases hw with ⟨w, hw⟩; exact Except.noConfusion hw,
      fun hn => by rcases hn with ⟨nvec, hn⟩; exact GymSpace.noConfusion hn⟩,
      fun _ => ⟨_, rfl⟩⟩

/-- Witness for C4 at the non-`MultiDiscrete` space `Discrete(5)`. -/
theorem c4_witness :
    ∃ msg, MultiDiscreteToDiscreteActionWrapper.init (GymSpace.discrete 5) =
      Except.error (PyError.unsupportedSpaceException msg) :=
  (c4_init_unsupported_space_iff (GymSpace.discrete 5)).2
    (fun _ h => GymSpace.noConfusion h)

/-- Claim C5: `RecSimResetWrapper.reset` returns an observation that contains
a `"response"` key holding exactly the value sampled from the declared
`"response"` sub-space (hence a validly-typed member of it, assuming the
external sampler is valid), appended after the keys of the underlying
`reset()` observation — which omits `"response"` — so the post-reset
observation has the per-step shape. -/
theorem c5_reset_injects_response (env : RecSimGymEnv) (sampledResponse : Elem)
    (sampled_obs : List (String × Elem))
    (hval : containsElem env.observation_space.response sampledResponse = true)
    (hmissing : env.resetObs.all (fun p => p.1 != "response") = true) :
    dictGet (RecSimResetWrapper.reset env sampledResponse sampled_obs) "response" =
      some sampledResponse ∧
    (∃ e, dictGet (RecSimResetWrapper.reset env sampledResponse sampled_obs) "response" =
      some e ∧ containsElem env.observation_space.response e = true) ∧
    (RecSimResetWrapper.reset env sampledResponse sampled_obs).map Prod.fst =
      env.resetObs.map Prod.fst ++ ["response"] := by
  have hany : env.resetObs.any (fun p => p.1 == "response") = false := by
    rw [List.any_eq_false]
    intro p hp
    have := List.all_eq_true.mp hmissing p hp
    simpa using this
  have hset : RecSimResetWrapper.reset env sampledResponse sampled_obs =
      env.resetObs ++ [("response", sampledResponse)] :=
    dictSet_of_missing env.resetObs "response" sampledResponse hany
  have hget : dictGet (RecSimResetWrapper.reset env sampledResponse sampled_obs)
      "response" = some sampledResponse := by
    rw [hset]; exact dictGet_append_of_missing env.resetObs "response" sampledResponse hany
  exact ⟨hget, ⟨sampledResponse, hget, hval⟩, by rw [hset]; simp⟩

/-- Witness for C5 on the concrete env `exampleEnv` whose `reset()`
observation has keys `["user", "doc"]`, with sampled response `1` from the
`Discrete(3)` response space. -/
theorem c5_witness :
    dictGet (RecSimResetWrapper.reset exampleEnv (Elem.int 1) []) "response" =
      some (Elem.int 1) ∧
    (∃ e, dictGet (RecSimResetWrapper.reset exampleEnv (Elem.int 1) []) "response" =
      some e ∧ containsElem exampleEnv.observation_space.response e = true) ∧
    (RecSimResetWrapper.reset exampleEnv (Elem.int 1) []).map Prod.fst =
      exampleEnv.resetObs.map Prod.fst ++ ["response"] :=
  c5_reset_injects_response exampleEnv (Elem.int 1) []
    (by simp [exampleEnv, containsElem]) (by simp [exampleEnv])

/-- Claim C6: for every `MultiDiscrete` cardinality vector,
`MultiDiscreteToDiscreteActionWrapper.__init__` exposes a single `Discrete`
action space whose size is the product of the slot cardinalities. -/
theorem c6_action_space_size_prod (nvec : List Nat) :
    MultiDiscreteToDiscreteActionWrapper.init (GymSpace.multiDiscrete nvec) =
      Except.ok ⟨nvec, GymSpace.discrete nvec.prod⟩ := rfl

/-- Claim C7: the observation space declared once by
`RecSimObservationSpaceWrapper.__init__` keeps the `"user"` and `"response"`
sub-spaces of the wrapped env unchanged and relabels the `"doc"` sub-space's
entries by position as strings `"0"` to `"N-1"`, keeping the sub-space values;
the wrapper state stores exactly this space, computed from the
construction-time input only. -/
theorem c7_observation_space_relabeled (s : ObsSpace) (sample : ObsSpace → StepObs) :
    (RecSimObservationSpaceWrapper.init s sample).observation_space =
      RecSimObservationSpaceWrapper.mkObservationSpace s ∧
    (RecSimObservationSpaceWrapper.mkObservationSpace s).user = s.user ∧
    (RecSimObservationSpaceWrapper.mkObservationSpace s).response = s.response ∧
    (RecSimObservationSpaceWrapper.mkObservationSpace s).doc.map Prod.fst =
      (List.range s.doc.length).map toString ∧
    (RecSimObservationSpaceWrapper.mkObservationSpace s).doc.map Prod.snd =
      s.doc.map Prod.snd :=
  ⟨rfl, rfl, rfl, reindex_map_fst s.doc, reindex_map_snd s.doc⟩

/-- Claim C8: `_RecSimEnv.__init__` supplies a default for every omitted
configuration key — `num_candidates = 10`, `slate_size = 2`,
`resample_documents = true`, `seed = 0`,
`convert_to_discrete_action_space = false` — also when no configuration is
passed at all, and never overrides a caller-supplied value. -/
theorem c8_config_defaults :
    resolveConfig none = default_config ∧
    ∀ c : EnvContextPartial, resolveConfig (some c) =
      { num_candidates := c.num_candidates.getD 10
        slate_size := c.slate_size.getD 2
        resample_documents := c.resample_documents.getD true
        seed := c.seed.getD 0
        convert_to_discrete_action_space :=
          c.convert_to_discrete_action_space.getD false } := by
  refine ⟨rfl, ?_⟩
  intro c
  rcases c with ⟨a, b, r, s, f⟩
  cases a <;> cases b <;> cases r <;> cases s <;> cases f <;> rfl

/-- Claim C9: `RecSimResetWrapper.close` is a no-op — it returns normally
(returning `None`), leaves the wrapper's state unchanged and never raises,
even when the underlying env's `close()` raises `NotImplementedError`. -/
theorem c9_close_noop (env : RecSimGymEnv)
    (_h : env.closeResult = Except.error PyError.notImplementedError) :
    RecSimResetWrapper.close env = Except.ok ((), env) := rfl

/-- Witness for C9 on the concrete env `exampleEnv`, whose `close()` raises. -/
theorem c9_witness :
    RecSimResetWrapper.close exampleEnv = Except.ok ((), exampleEnv) :=
  c9_close_noop exampleEnv rfl

/-- Claim C10: the combined-index encoding is little-endian in slot order —
for every valid combined index `i`, the decoded vector `v` satisfies
`i = v_0 + n_0 * (v_1 + n_1 * (...))` (which is what `toCombinedIndex`
computes), and in particular with cardinalities `[3, 4]` index `5` decodes to
`[2, 1]`. -/
theorem c10_little_endian_encoding (dims : List Nat) (i : Nat) (hi : i < dims.prod) :
    MultiDiscreteToDiscreteActionWrapper.toCombinedIndex dims
      (MultiDiscreteToDiscreteActionWrapper.action dims i) = i ∧
    MultiDiscreteToDiscreteActionWrapper.action [3, 4] 5 = [2, 1] :=
  ⟨MultiDiscreteToDiscreteActionWrapper.toCombinedIndex_action dims i hi, rfl⟩

/-- Witness for C10 at cardinalities `[3, 4]` and combined index `5`. -/
theorem c10_witness :
    MultiDiscreteToDiscreteActionWrapper.toCombinedIndex [3, 4]
      (MultiDiscreteToDiscreteActionWrapper.action [3, 4] 5) = 5 ∧
    MultiDiscreteToDiscreteActionWrapper.action [3, 4] 5 = [2, 1] :=
  c10_little_endian_encoding [3, 4] 5 (by decide)

end RecSimWrap
